import Mathlib

/-!
Shallow embedding of the news-fetching core of the repository
(`news_fetcher.py`, class `NewsFetcher`) and verification of the
specification claims about it.

Python strings are modelled as Lean `String`; Python's `x in s`
substring test is modelled by `containsSub` on the underlying character
lists; timestamps are `Int` seconds; the database session is modelled as
explicit lists of records threaded through the functions.
-/

namespace NewsFetcher

/-! ### String utilities (Python `in`, `.lower()`, slicing, SQL LIKE) -/

/-- Model of Python's `str.lower()` on the character list of a string. -/
def lowerStr (s : String) : List Char :=
  s.data.map Char.toLower

/-- `containsSub needle hay` models Python's `needle in hay` substring test. -/
def containsSub (needle : List Char) : List Char → Bool
  | [] => needle.isEmpty
  | c :: rest => List.isPrefixOf needle (c :: rest) || containsSub needle rest

/-- Python slicing `s[:n]`. -/
def pyTake (s : String) (n : Nat) : String :=
  String.mk (s.data.take n)

/-- SQL `LIKE '%p%q%'`: some occurrence of `p` is followed (disjointly) by an
occurrence of `q`.  Matching at each position tries `p` as a prefix and looks
for `q` in the remainder; scanning the first occurrence of `p` first is
complete because later occurrences leave a shorter tail. -/
def likeTwo (p q : List Char) : List Char → Bool
  | [] => List.isPrefixOf p [] && containsSub q []
  | c :: rest =>
    (List.isPrefixOf p (c :: rest) && containsSub q ((c :: rest).drop p.length)) ||
    likeTwo p q rest

/-- SQLite `LIKE` is ASCII case-insensitive: both pattern pieces and the
message are lowered before matching.  This models the pattern
`'%' || name || '%error%'` used by `_consider_disabling_source` and
`_get_source_health_status`. -/
def likeNameError (name msg : String) : Bool :=
  likeTwo (lowerStr name) (lowerStr "error") (lowerStr msg)

/-! ### Relevance classifier (`_is_trucking_related`) -/

def truckingKeywords : List String :=
  ["trucking", "logistics", "freight", "transportation", "shipping",
   "supply chain", "cargo", "delivery", "fleet", "driver", "trucker",
   "commercial vehicle", "semi truck", "trailer", "dispatch",
   "CDL", "DOT", "FMCSA", "hours of service", "ELD"]

def usaIndicators : List String :=
  ["usa", "united states", "america", "us ", "federal", "dot", "fmcsa"]

def transportTerms : List String :=
  ["transport", "deliver", "ship", "cargo", "fleet", "driver", "truck",
   "logistics", "freight"]

def industryTerms : List String :=
  ["cdl", "eld", "hours of service", "commercial vehicle", "semi",
   "trailer", "dispatch", "carrier"]

def businessTerms : List String :=
  ["market", "industry", "business", "company", "fleet", "driver", "pay",
   "salary", "regulation"]

/-- `keyword in text_lower` as written in the source: the keyword is used
verbatim (not lowered) and tested against the lowered text. -/
def occursIn (kw : String) (textLower : List Char) : Bool :=
  containsSub kw.data textLower

/-- `_is_trucking_related`, parametrised by the five keyword lists so that
iteration-order independence can be stated. -/
def is_trucking_related_with (kws usa tr ind bus : List String) (text : String) : Bool :=
  let tl := lowerStr text
  if kws.any (fun k => occursIn k tl) then true
  else
    let hasUsa := usa.any (fun k => occursIn k tl)
    let hasTransport := tr.any (fun k => occursIn k tl)
    let hasIndustry := ind.any (fun k => occursIn k tl)
    if hasIndustry then true
    else if hasTransport && hasUsa then true
    else
      let hasBusiness := bus.any (fun k => occursIn k tl)
      if hasBusiness && hasTransport then true else false

/-- `_is_trucking_related` with the lists fixed as in the source. -/
def is_trucking_related (text : String) : Bool :=
  is_trucking_related_with truckingKeywords usaIndicators transportTerms
    industryTerms businessTerms text

/-- Reference OR-composition from the spec's words, with fully
case-insensitive matching: each keyword is lowered before the substring
test.  (Spec §4.3: "All matching is case-insensitive substring matching".) -/
def isRelevantSpec (text : String) : Bool :=
  let tl := lowerStr text
  truckingKeywords.any (fun k => containsSub (lowerStr k) tl) ||
  industryTerms.any (fun k => containsSub (lowerStr k) tl) ||
  (transportTerms.any (fun k => containsSub (lowerStr k) tl) &&
    usaIndicators.any (fun k => containsSub (lowerStr k) tl)) ||
  (transportTerms.any (fun k => containsSub (lowerStr k) tl) &&
    businessTerms.any (fun k => containsSub (lowerStr k) tl))

/-- Reference OR-composition matching exactly as the code matches: each
keyword is used verbatim against the lowered text. -/
def isRelevantRef (text : String) : Bool :=
  let tl := lowerStr text
  truckingKeywords.any (fun k => occursIn k tl) ||
  industryTerms.any (fun k => occursIn k tl) ||
  (transportTerms.any (fun k => occursIn k tl) &&
    usaIndicators.any (fun k => occursIn k tl)) ||
  (transportTerms.any (fun k => occursIn k tl) &&
    businessTerms.any (fun k => occursIn k tl))

/-! ### Data model -/

/-- A row of the `news_sources` table (`models.NewsSource`), restricted to the
fields the fetcher reads and writes. -/
structure Source where
  name : String
  url : String
  type : String
  enabled : Bool
  last_fetched : Option Int
  total_articles_fetched : Nat
deriving DecidableEq, Repr

/-- The article dict built by the extractors (`_fetch_from_rss` /
`_fetch_from_website`).  `content` and `image_url` model the optional dict
keys. -/
structure PyArticle where
  title : String
  url : String
  summary : String
  published : String
  source : String
  content : Option String
  image_url : Option String
deriving DecidableEq, Repr

/-- A row of the `posts` table as created by the fetcher. -/
structure Post where
  title : String
  content : String
  url : String
  image_url : Option String
  source : String
  status : String
deriving DecidableEq, Repr

/-- A row of the `posting_logs` table (`_log_action` appends these). -/
structure LogEvent where
  action : String
  message : String
  ts : Int
deriving DecidableEq, Repr

/-- The error taxonomy produced by `_handle_fetch_error`. -/
inductive ErrorType
  | access_denied
  | not_found
  | timeout
  | connection_error
  | unknown
deriving DecidableEq, Repr

/-- The per-kind message text built by `_handle_fetch_error`.  For `unknown`
the raw `str(error)` is interpolated; it is passed in as `raw`. -/
def errorMessage (name : String) (e : ErrorType) (raw : String) : String :=
  match e with
  | .access_denied =>
    "Access denied (403) - " ++ name ++ " may be blocking automated requests"
  | .not_found =>
    "RSS feed not found (404) - " ++ name ++ " URL may be incorrect"
  | .timeout =>
    "Request timeout - " ++ name ++ " may be slow or unresponsive"
  | .connection_error =>
    "Connection error - " ++ name ++ " may be down or unreachable"
  | .unknown =>
    "Unknown error: " ++ raw

/-- The log row appended by `_handle_fetch_error` on every failing attempt:
`self._log_action('error', f"Fetch attempt {attempt} failed for {source.name}:
{error_message}")`. -/
def errorLogEvent (name : String) (e : ErrorType) (raw : String) (attempt : Nat)
    (now : Int) : LogEvent :=
  { action := "error",
    message := "Fetch attempt " ++ toString attempt ++ " failed for " ++ name
      ++ ": " ++ errorMessage name e raw,
    ts := now }

/-! ### Error classifier / health tracker -/

/-- The `SELECT COUNT(*) FROM posting_logs WHERE message LIKE '%name%error%'
AND timestamp > datetime('now', '-window')` query shared by
`_consider_disabling_source` (window = 7 days) and
`_get_source_health_status` (window = 24 hours). -/
def recentErrorCount (logs : List LogEvent) (name : String) (now window : Int) : Nat :=
  (logs.filter (fun ev => likeNameError name ev.message && decide (now - window < ev.ts))).length

/-- The count the specification speaks about: error events logged for this
source (rows appended with action `error` whose message names the source)
inside the trailing window. -/
def errorEventsForSource (logs : List LogEvent) (name : String) (now window : Int) : Nat :=
  (logs.filter (fun ev =>
    ev.action == "error" && containsSub name.data ev.message.data
      && decide (now - window < ev.ts))).length

/-- `True` for the "persistent" error kinds that may trigger auto-disable. -/
def isPersistent (e : ErrorType) : Bool :=
  match e with
  | .access_denied => true
  | .not_found => true
  | _ => false

/-- The `disable` log row appended when a source is auto-disabled. -/
def disableEvent (name : String) (e : ErrorType) (now : Int) : LogEvent :=
  { action := "disable",
    message := "Auto-disabled " ++ name ++ " due to persistent "
      ++ (match e with
          | .access_denied => "access_denied"
          | .not_found => "not_found"
          | .timeout => "timeout"
          | .connection_error => "connection_error"
          | .unknown => "unknown") ++ " errors",
    ts := now }

/-- `_consider_disabling_source`: count the LIKE-matching rows of the last
7 days; if the count reaches 10 and the final error kind is persistent, flip
`enabled` off and append a `disable` log row. -/
def consider_disabling_source (now : Int) (src : Source) (e : ErrorType)
    (logs : List LogEvent) : Source × List LogEvent :=
  let recent := recentErrorCount logs src.name now 604800
  if 10 ≤ recent && isPersistent e then
    ({ src with enabled := false }, logs ++ [disableEvent src.name e now])
  else
    (src, logs)

/-- One entry of the list returned by `_get_source_health_status`. -/
structure HealthEntry where
  name : String
  enabled : Bool
  last_fetched : Option Int
  total_articles : Nat
  recent_errors : Nat
  success_rate : Int
  status : String
deriving DecidableEq, Repr

/-- The per-source body of `_get_source_health_status`: `success_rate` starts
at 100 and is replaced by `max(0, 100 - recent_errors*10)` only when the
source has fetched at least one article in its lifetime; `status` buckets the
recent error count. -/
def source_health_entry (src : Source) (recent_errors : Nat) : HealthEntry :=
  { name := src.name,
    enabled := src.enabled,
    last_fetched := src.last_fetched,
    total_articles := src.total_articles_fetched,
    recent_errors := recent_errors,
    success_rate :=
      if 0 < src.total_articles_fetched then
        max 0 (100 - (recent_errors : Int) * 10)
      else 100,
    status :=
      if recent_errors == 0 then "healthy"
      else if recent_errors < 5 then "warning"
      else "critical" }

/-- `_get_source_health_status`: one entry per source, with the recent error
count taken from the trailing 24-hour LIKE query. -/
def get_source_health_status (now : Int) (logs : List LogEvent)
    (sources : List Source) : List HealthEntry :=
  sources.map (fun s => source_health_entry s (recentErrorCount logs s.name now 86400))

/-! ### Recovery sweeper (`test_rss_source`, `auto_recover_sources`) -/

/-- The slice of the dict returned by `test_rss_source` that
`auto_recover_sources` reads: the `error` key (absent on a successful parse
with entries) and `total_entries`. -/
structure TestResult where
  error : Option String
  total_entries : Nat
deriving DecidableEq, Repr

/-- A probe outcome for one source: either `feedparser.parse` (and the
surrounding code) raises with message `msg`, or it succeeds and the feed has
`n` entries. -/
def ProbeOracle := Source → Except String Nat

/-- `test_rss_source`, observed through the keys the sweeper uses: on an
exception the result carries `error = str(e)` and zero entries; on success
with no entries it carries `error = 'No entries found'`; otherwise no error
key and the entry count. -/
def test_rss_source (probe : ProbeOracle) (src : Source) : TestResult :=
  match probe src with
  | .error msg => { error := some msg, total_entries := 0 }
  | .ok n =>
    if n == 0 then { error := some "No entries found", total_entries := 0 }
    else { error := none, total_entries := n }

/-- The re-enable condition
`not test_result.get('error') and test_result.get('total_entries', 0) > 0`;
a `None`/absent or empty error string is falsy in Python. -/
def probePasses (r : TestResult) : Bool :=
  (match r.error with
   | none => true
   | some s => s == "") && decide (0 < r.total_entries)

/-- The `enable` log row appended on automatic recovery. -/
def enableEvent (name : String) (now : Int) : LogEvent :=
  { action := "enable",
    message := "Auto-enabled " ++ name ++ " - source appears to be working again",
    ts := now }

/-- The body of the sweeper's per-source loop: enabled sources are not in the
`filter_by(enabled=False)` result; a disabled source is probed only when
`last_fetched` is non-null and more than 24 hours old; the probe re-enables
it exactly when it passes.  Returns the updated source, whether the source
was probed, and whether it was re-enabled. -/
def recover_one (now : Int) (probe : ProbeOracle) (s : Source) :
    Source × Bool × Bool :=
  if s.enabled then (s, false, false)
  else
    match s.last_fetched with
    | none => (s, false, false)
    | some t =>
      if 86400 < now - t then
        if probePasses (test_rss_source probe s) then
          ({ s with enabled := true }, true, true)
        else (s, true, false)
      else (s, false, false)

/-- The aggregate result of one `auto_recover_sources` sweep, with the probe
and recovery traces exposed. -/
structure RecoverResult where
  sources : List Source
  logs : List LogEvent
  probed : List String
  recovered : List String
deriving DecidableEq, Repr

/-- `auto_recover_sources`: apply `recover_one` to each source in order,
appending an `enable` log row for each source that is re-enabled. -/
def auto_recover_sources (now : Int) (probe : ProbeOracle) :
    List Source → List LogEvent → RecoverResult
  | [], logs => { sources := [], logs := logs, probed := [], recovered := [] }
  | s :: rest, logs =>
    let u := recover_one now probe s
    let logs1 := if u.2.2 then logs ++ [enableEvent s.name now] else logs
    let R := auto_recover_sources now probe rest logs1
    { sources := u.1 :: R.sources,
      logs := R.logs,
      probed := (if u.2.1 then [s.name] else []) ++ R.probed,
      recovered := (if u.2.2 then [s.name] else []) ++ R.recovered }

/-- Iterate the recovery sweep `k` times over the registry and log. -/
def sweepN (now : Int) (probe : ProbeOracle) :
    Nat → List Source × List LogEvent → List Source × List LogEvent
  | 0, st => st
  | k + 1, st =>
    let R := auto_recover_sources now probe st.1 st.2
    sweepN now probe k (R.sources, R.logs)

/-! ### Deduplication and persistence (`_process_and_save_articles`) -/

/-- The `fetch` log row appended for each accepted candidate. -/
def fetchEvent (title : String) (now : Int) : LogEvent :=
  { action := "fetch", message := "Saved article: " ++ title, ts := now }

/-- `_process_and_save_articles`: for each candidate in order, look up an
existing post with the same title (the session autoflushes, so posts added
earlier in the same batch are visible); drop the candidate when found,
otherwise add a new `pending` post and a `fetch` log row.  The title+URL MD5
hash computed by the source is dead code (never read) and is not modelled.
`fmt` is the external `_format_for_facebook` collaborator.  Returns the post
table, the log, and the list of saved candidates. -/
def process_and_save_articles (fmt : PyArticle → String) (now : Int) :
    List PyArticle → List Post → List LogEvent →
    List Post × List LogEvent × List PyArticle
  | [], posts, logs => (posts, logs, [])
  | a :: rest, posts, logs =>
    if posts.any (fun p => p.title == a.title) then
      process_and_save_articles fmt now rest posts logs
    else
      let post : Post :=
        { title := a.title, content := fmt a, url := a.url,
          image_url := a.image_url, source := a.source, status := "pending" }
      let R := process_and_save_articles fmt now rest (posts ++ [post])
        (logs ++ [fetchEvent a.title now])
      (R.1, R.2.1, a :: R.2.2)

/-- Number of stored posts carrying a given title. -/
def countTitle (t : String) (posts : List Post) : Nat :=
  (posts.filter (fun p => p.title == t)).length

/-! ### Feed extractor (`_fetch_from_rss`) -/

/-- One parsed feed entry as read by `_fetch_from_rss`. -/
structure FeedEntry where
  title : String
  link : String
  summary : String
  published : String
deriving DecidableEq, Repr

/-- Outcome of the per-entry `newspaper.Article` enrichment: either
`download()`/`parse()` succeed and yield `text`/`top_image` (possibly empty
strings, which are falsy), or they raise. -/
inductive EnrichResult
  | ok (text : String) (topImage : String)
  | fail
deriving DecidableEq, Repr

/-- The article dict `_fetch_from_rss` builds for one relevant entry, given
the enrichment outcome and the outcome of the `_fetch_with_requests`
fallback (`none` models `None`, `some ""` models an empty — falsy —
result). -/
def rssEntryArticle (sourceName : String) (enrich : FeedEntry → EnrichResult)
    (alt : FeedEntry → Option String) (e : FeedEntry) : PyArticle :=
  match enrich e with
  | .ok text img =>
    { title := e.title, url := e.link, summary := e.summary,
      published := e.published, source := sourceName,
      content := if text == "" then none else some (pyTake text 1000),
      image_url := if img == "" then none else some img }
  | .fail =>
    { title := e.title, url := e.link, summary := e.summary,
      published := e.published, source := sourceName,
      content := some (match alt e with
        | some c => if c == "" then e.summary else pyTake c 1000
        | none => e.summary),
      image_url := none }

/-- The relevance test applied to a feed entry:
`entry.title + ' ' + getattr(entry, 'summary', '')`. -/
def entryRelevant (e : FeedEntry) : Bool :=
  is_trucking_related (e.title ++ " " ++ e.summary)

/-- `_fetch_from_rss` restricted to its article output: at most the 10 most
recent entries, keeping each relevant one (with enrichment best-effort). -/
def fetch_from_rss (sourceName : String) (entries : List FeedEntry)
    (enrich : FeedEntry → EnrichResult) (alt : FeedEntry → Option String) :
    List PyArticle :=
  (entries.take 10).filterMap (fun e =>
    if entryRelevant e then some (rssEntryArticle sourceName enrich alt e)
    else none)

/-! ### Outbound-call traces of the two extractors -/

/-- An outbound HTTP call issued by the extractors. -/
inductive NetCall
  | feedFetch
  | rootFetch
  | newspaperFetch (link : String)
  | altFetch (link : String)
deriving DecidableEq, Repr

/-- A step of the network trace: either a `_rate_limit()` acquisition or an
outbound call. -/
inductive NetEv
  | limit
  | call (c : NetCall)
deriving DecidableEq, Repr

/-- Trace of `_fetch_from_rss`: `_rate_limit()` then `feedparser.parse`; for
each relevant entry of the first 10, `Article.download()` is issued with no
`_rate_limit()` call, and when it fails `_fetch_with_requests` issues
`_rate_limit()` followed by `requests.get`. -/
def rssTrace (entries : List FeedEntry) (enrichFails : FeedEntry → Bool) :
    List NetEv :=
  NetEv.limit :: NetEv.call NetCall.feedFetch ::
  (entries.take 10).flatMap (fun e =>
    if entryRelevant e then
      NetEv.call (NetCall.newspaperFetch e.link) ::
        (if enrichFails e then
          [NetEv.limit, NetEv.call (NetCall.altFetch e.link)]
        else [])
    else [])

/-- One `<a href=...>` link discovered by `_fetch_from_website`. -/
structure PageLink where
  text : String
  href : String
deriving DecidableEq, Repr

/-- Python `url.rstrip('/')`. -/
def rstripSlash (url : String) : String :=
  String.mk (((url.data.reverse).dropWhile (fun c => c == '/')).reverse)

/-- Absolute-URL normalisation of a link href against the source URL. -/
def normHref (sourceUrl href : String) : String :=
  if href.startsWith "/" then rstripSlash sourceUrl ++ href else href

/-- The filter applied to each discovered link: usable href, relevant link
text, link text longer than 10 characters. -/
def linkCandidate (l : PageLink) : Bool :=
  (l.href.startsWith "/" || l.href.startsWith "http") &&
  is_trucking_related l.text && decide (10 < l.text.length)

/-- Trace of `_fetch_from_website`: `_rate_limit()` then the root
`requests.get`; for each candidate of the first 20 links,
`Article.download()` is issued with no `_rate_limit()` call, and whenever the
newspaper result is unusable (raise, or empty title/text) the
`_fetch_with_requests` fallback issues `_rate_limit()` followed by
`requests.get`. -/
def websiteTrace (sourceUrl : String) (links : List PageLink)
    (usable : PageLink → Bool) : List NetEv :=
  NetEv.limit :: NetEv.call NetCall.rootFetch ::
  (links.take 20).flatMap (fun l =>
    if linkCandidate l then
      NetEv.call (NetCall.newspaperFetch (normHref sourceUrl l.href)) ::
        (if usable l then []
         else [NetEv.limit, NetEv.call (NetCall.altFetch (normHref sourceUrl l.href))])
    else [])

/-- Calls that the source guards with `_rate_limit()` immediately before
issuing them. -/
def limitedCall : NetCall → Bool
  | .feedFetch => true
  | .rootFetch => true
  | .altFetch _ => true
  | .newspaperFetch _ => false

/-- `callsLimitedFrom prevLimit tr` holds when, in `tr`, every outbound call
is immediately preceded by a `_rate_limit()` acquisition (`prevLimit` says
whether the event before `tr` was one). -/
def callsLimitedFrom : Bool → List NetEv → Bool
  | _, [] => true
  | prevLimit, NetEv.call _ :: rest => prevLimit && callsLimitedFrom false rest
  | _, NetEv.limit :: rest => callsLimitedFrom true rest

/-- As `callsLimitedFrom`, but only the calls that the source actually
guards are required to be preceded by a `_rate_limit()`. -/
def guardedCallsLimitedFrom : Bool → List NetEv → Bool
  | _, [] => true
  | prevLimit, NetEv.call c :: rest =>
    (!limitedCall c || prevLimit) && guardedCallsLimitedFrom false rest
  | _, NetEv.limit :: rest => guardedCallsLimitedFrom true rest

/-! ### Fetch orchestrator (`fetch_latest_news`) -/

/-- Outcome of one extraction attempt for one source: either the extractor
returns an article list (possibly empty) or it raises an exception that
`_handle_fetch_error` classifies as `e` with raw text `raw`. -/
inductive FetchOutcome
  | ok (arts : List PyArticle)
  | err (e : ErrorType) (raw : String)
deriving Repr

/-- Per-source, per-attempt extractor behaviour (attempts are numbered from
retry count 0). -/
def FetchOracle := String → Nat → FetchOutcome

/-- The retry loop of `fetch_latest_news` for one source, mirroring
`while retry_count <= max_retries and not source_articles`.  A successful
non-empty attempt updates `last_fetched` and the lifetime count and stops; a
final empty attempt still updates `last_fetched`; every raising attempt
appends an `error` log row, and a raising final attempt with a persistent
error kind runs `_consider_disabling_source`.  `fuel` is
`maxRetries + 1 - retry_count`, the number of attempts left. -/
def runAttempts (now : Int) (oracle : Nat → FetchOutcome) (maxRetries : Nat)
    (src : Source) (logs : List LogEvent) (retry_count : Nat) :
    Nat → Source × List LogEvent × List PyArticle
  | 0 => (src, logs, [])
  | fuel + 1 =>
    match oracle retry_count with
    | .ok (a :: arts) =>
      let src1 : Source :=
        { src with
          last_fetched := some now
          total_articles_fetched := src.total_articles_fetched + (a :: arts).length }
      (src1, logs, a :: arts)
    | .ok [] =>
      if retry_count < maxRetries then
        runAttempts now oracle maxRetries src logs (retry_count + 1) fuel
      else
        ({ src with last_fetched := some now }, logs, [])
    | .err e raw =>
      let logs1 := logs ++ [errorLogEvent src.name e raw (retry_count + 1) now]
      if retry_count < maxRetries then
        runAttempts now oracle maxRetries src logs1 (retry_count + 1) fuel
      else
        if isPersistent e then
          let d := consider_disabling_source now src e logs1
          (d.1, d.2, [])
        else
          (src, logs1, [])

/-- Process one source of the per-source loop. -/
def processSource (now : Int) (oracle : FetchOracle) (maxRetries : Nat)
    (src : Source) (logs : List LogEvent) :
    Source × List LogEvent × List PyArticle :=
  runAttempts now (oracle src.name) maxRetries src logs 0 (maxRetries + 1)

/-- The sequential per-source loop: thread the log through, collect the
updated source records and the concatenated article lists. -/
def processSources (now : Int) (oracle : FetchOracle) (maxRetries : Nat) :
    List Source → List LogEvent → List Source × List LogEvent × List PyArticle
  | [], logs => ([], logs, [])
  | s :: rest, logs =>
    let r := processSource now oracle maxRetries s logs
    let R := processSources now oracle maxRetries rest r.2.1
    (r.1 :: R.1, R.2.1, r.2.2 ++ R.2.2)

/-- The article list one source contributes, independent of the ambient log. -/
def sourceArticles (now : Int) (oracle : FetchOracle) (maxRetries : Nat)
    (src : Source) : List PyArticle :=
  (processSource now oracle maxRetries src []).2.2

/-- Write the mutated snapshot records back into the registry by name,
modelling that the ORM objects iterated by the loop are the registry rows
themselves. -/
def mergeByName (base upd : List Source) : List Source :=
  base.map (fun s =>
    match upd.find? (fun u => u.name == s.name) with
    | some u => u
    | none => s)

/-- The observable result of one `fetch_latest_news` invocation. -/
structure RunResult where
  sources : List Source
  posts : List Post
  logs : List LogEvent
  collected : List PyArticle
  saved : List PyArticle
  fetchedNames : List String
  recoveredNames : List String

/-- `fetch_latest_news`: snapshot the enabled sources (the query runs before
anything else); return early when there are none; run the recovery sweep;
loop over the snapshot with retries; then dedup-and-save the collected
articles as one batch. -/
def fetch_latest_news (now : Int) (oracle : FetchOracle) (probe : ProbeOracle)
    (fmt : PyArticle → String) (maxRetries : Nat) (sources : List Source)
    (posts : List Post) (logs : List LogEvent) : RunResult :=
  let snapshot := sources.filter (fun s => s.enabled)
  if snapshot.isEmpty then
    { sources := sources, posts := posts, logs := logs, collected := [],
      saved := [], fetchedNames := [], recoveredNames := [] }
  else
    let R := auto_recover_sources now probe sources logs
    let P := processSources now oracle maxRetries snapshot R.logs
    let S := process_and_save_articles fmt now P.2.2 posts P.2.1
    { sources := mergeByName R.sources P.1,
      posts := S.1,
      logs := S.2.1,
      collected := P.2.2,
      saved := S.2.2,
      fetchedNames := snapshot.map (fun s => s.name),
      recoveredNames := R.recovered }

/-! ### Concrete inputs used by counterexamples and witnesses -/

/-- An enabled source named `X`, as used in the C1 failing scenario. -/
def srcX : Source :=
  { name := "X", url := "http://x/rss", type := "rss", enabled := true,
    last_fetched := some 0, total_articles_fetched := 0 }

/-- Ten `access_denied` error rows logged for `X` by `_handle_fetch_error`
within the trailing seven days of `now = 1000000`. -/
def logsX : List LogEvent :=
  (List.range 10).map (fun i =>
    errorLogEvent "X" ErrorType.access_denied "" (i + 1) (990000 + i))

/-- A source that has never fetched an article, used in the C9
counterexample. -/
def srcH : Source :=
  { name := "S", url := "http://s/rss", type := "rss", enabled := true,
    last_fetched := none, total_articles_fetched := 0 }

/-- Three log rows matching the `%S%error%` pattern inside the trailing 24
hours of `now = 1000000`. -/
def logsH : List LogEvent :=
  [{ action := "error", message := "Fetch attempt 1 failed for S: Connection error - S may be down or unreachable", ts := 999000 },
   { action := "error", message := "Fetch attempt 2 failed for S: Connection error - S may be down or unreachable", ts := 999100 },
   { action := "error", message := "Fetch attempt 3 failed for S: Connection error - S may be down or unreachable", ts := 999200 }]

/-- Disabled source used by the C4 witness: `last_fetched` is 100000 seconds
(about 27.8 hours) before the probe time. -/
def sweepSrc : Source :=
  { name := "A", url := "http://a/rss", type := "rss", enabled := false,
    last_fetched := some 100000, total_articles_fetched := 5 }

/-- Disabled source used by the C10 witness: never fetched successfully. -/
def nullSrc : Source :=
  { name := "N", url := "http://n/rss", type := "rss", enabled := false,
    last_fetched := none, total_articles_fetched := 0 }

/-- Disabled-but-recoverable source for the C3 counterexample: at
`now = 90000` its `last_fetched` of 0 is more than 24 hours old. -/
def srcA : Source :=
  { name := "A", url := "http://a/rss", type := "rss", enabled := false,
    last_fetched := some 0, total_articles_fetched := 5 }

/-- Enabled source fetched in the C3 counterexample run. -/
def srcB : Source :=
  { name := "B", url := "http://b/rss", type := "rss", enabled := true,
    last_fetched := none, total_articles_fetched := 0 }

/-- The single candidate article source `B` yields. -/
def artB : PyArticle :=
  { title := "trucking t", url := "http://b/1", summary := "s",
    published := "", source := "B", content := some "c", image_url := none }

/-- Oracle for the C3 run: `B` succeeds immediately, everything else times
out. -/
def oracleAB : FetchOracle := fun n _ =>
  if n == "B" then FetchOutcome.ok [artB]
  else FetchOutcome.err ErrorType.timeout ""

/-- Probe that always reports a healthy feed with three entries. -/
def probeOK3 : ProbeOracle := fun _ => Except.ok 3

/-- Trivial stand-in for the external `_format_for_facebook` collaborator. -/
def fmtTitle : PyArticle → String := fun a => a.title

/-- Relevant feed entry used by the C6 counterexample and the C8 witness. -/
def rssEntry0 : FeedEntry :=
  { title := "trucking news", link := "http://l/1", summary := "sum",
    published := "" }

/-- Sources and articles for the C5 witness run: the middle source fails
every attempt. -/
def srcOne : Source :=
  { name := "ONE", url := "http://one/rss", type := "rss", enabled := true,
    last_fetched := none, total_articles_fetched := 0 }

def srcBad : Source :=
  { name := "BAD", url := "http://bad/rss", type := "rss", enabled := true,
    last_fetched := none, total_articles_fetched := 0 }

def srcTwo : Source :=
  { name := "TWO", url := "http://two/rss", type := "rss", enabled := true,
    last_fetched := none, total_articles_fetched := 0 }

def artOne : PyArticle :=
  { title := "freight up", url := "http://one/1", summary := "s1",
    published := "", source := "ONE", content := some "c1", image_url := none }

def artTwo : PyArticle :=
  { title := "fleet news", url := "http://two/1", summary := "s2",
    published := "", source := "TWO", content := some "c2", image_url := none }

/-- Oracle for the C5 witness: `ONE` and `TWO` succeed on the first attempt,
`BAD` raises a timeout on every attempt. -/
def oracleC5 : FetchOracle := fun n _ =>
  if n == "ONE" then FetchOutcome.ok [artOne]
  else if n == "TWO" then FetchOutcome.ok [artTwo]
  else FetchOutcome.err ErrorType.timeout ""

/-- Batch with an in-batch duplicate title, used by the C2 witness. -/
def dupBatch : List PyArticle :=
  [{ title := "same title", url := "http://u/1", summary := "s",
     published := "", source := "S1", content := none, image_url := none },
   { title := "same title", url := "http://u/2", summary := "s",
     published := "", source := "S2", content := none, image_url := none },
   { title := "other title", url := "http://u/3", summary := "s",
     published := "", source := "S1", content := none, image_url := none }]

end NewsFetcher

namespace NewsFetcher

/-! ### Shared helper lemmas -/

theorem any_eq_of_perm {l1 l2 : List String} (h : l1.Perm l2)
    (f : String → Bool) : l1.any f = l2.any f := by
  cases h1 : l1.any f with
  | true =>
    rw [List.any_eq_true] at h1
    obtain ⟨x, hx, hfx⟩ := h1
    exact (List.any_eq_true.mpr ⟨x, h.mem_iff.mp hx, hfx⟩).symm
  | false =>
    cases h2 : l2.any f with
    | false => rfl
    | true =>
      rw [List.any_eq_true] at h2
      obtain ⟨x, hx, hfx⟩ := h2
      have : l1.any f = true := List.any_eq_true.mpr ⟨x, h.mem_iff.mpr hx, hfx⟩
      rw [h1] at this
      exact this

/-- The if-chain of `_is_trucking_related` collapses to the OR-composition of
its five membership signals. -/
theorem is_trucking_related_with_eq (kws usa tr ind bus : List String)
    (t : String) :
    is_trucking_related_with kws usa tr ind bus t =
      (kws.any (fun k => occursIn k (lowerStr t)) ||
       ind.any (fun k => occursIn k (lowerStr t)) ||
       (tr.any (fun k => occursIn k (lowerStr t)) &&
         usa.any (fun k => occursIn k (lowerStr t))) ||
       (tr.any (fun k => occursIn k (lowerStr t)) &&
         bus.any (fun k => occursIn k (lowerStr t)))) := by
  unfold is_trucking_related_with
  cases hK : kws.any (fun k => occursIn k (lowerStr t)) <;>
    cases hI : ind.any (fun k => occursIn k (lowerStr t)) <;>
      cases hT : tr.any (fun k => occursIn k (lowerStr t)) <;>
        cases hU : usa.any (fun k => occursIn k (lowerStr t)) <;>
          cases hB : bus.any (fun k => occursIn k (lowerStr t)) <;>
            simp [hK, hI, hT, hU, hB]

/-! ### C7: relevance classifier -/

/-- C7, counterexample: the claim says `_is_trucking_related` equals the
OR-composition reference with case-insensitive substring matching, but the
source tests each keyword verbatim against the lowered text, so the
upper-case vocabulary entries (`CDL`, `DOT`, `FMCSA`, `ELD`) never match:
on the text `"FMCSA"` the code answers `false` while the case-insensitive
reference answers `true`. -/
theorem c7_counterexample :
    is_trucking_related "FMCSA" = false ∧ isRelevantSpec "FMCSA" = true := by
  exact ⟨by decide, by decide⟩

/-- C7, amended: for every text `T`, `_is_trucking_related` is a pure
function equal to the OR-composition reference in which each keyword is
matched verbatim against the lowercased text (so matching is
case-insensitive only for all-lowercase keywords): `T` is relevant iff some
domain keyword occurs, or some industry term occurs, or a transportation
term and a region indicator both occur, or a transportation term and a
generic business term both occur; and the result is independent of the
iteration order of every keyword list. -/
theorem c7_relevance_or_composition (t : String)
    (kws usa tr ind bus : List String)
    (h1 : kws.Perm truckingKeywords) (h2 : usa.Perm usaIndicators)
    (h3 : tr.Perm transportTerms) (h4 : ind.Perm industryTerms)
    (h5 : bus.Perm businessTerms) :
    is_trucking_related t = isRelevantRef t ∧
    is_trucking_related_with kws usa tr ind bus t = is_trucking_related t := by
  constructor
  · rw [is_trucking_related, is_trucking_related_with_eq, isRelevantRef]
  · rw [is_trucking_related, is_trucking_related_with_eq,
      is_trucking_related_with_eq,
      any_eq_of_perm h1, any_eq_of_perm h2, any_eq_of_perm h3,
      any_eq_of_perm h4, any_eq_of_perm h5]

/-- C7, witness: the amended theorem applied to a concrete text and a
concrete reordering of the keyword lists. -/
theorem c7_relevance_or_composition_witness :
    is_trucking_related "trucking rates rise" =
      isRelevantRef "trucking rates rise" ∧
    is_trucking_related_with
        (["logistics", "trucking"] ++ truckingKeywords.drop 2) usaIndicators
        transportTerms industryTerms businessTerms "trucking rates rise" =
      is_trucking_related "trucking rates rise" := by
  have h := c7_relevance_or_composition "trucking rates rise"
    (["logistics", "trucking"] ++ truckingKeywords.drop 2) usaIndicators
    transportTerms industryTerms businessTerms (by decide) (List.Perm.refl _)
    (List.Perm.refl _) (List.Perm.refl _) (List.Perm.refl _)
  exact ⟨h.1, h.2⟩

/-! ### C9: health report -/

/-- Bucketing and success-rate behaviour of one health entry. -/
theorem source_health_entry_spec (s : Source) (e : Nat) :
    ((source_health_entry s e).status = "healthy" ↔ e = 0) ∧
    ((source_health_entry s e).status = "warning" ↔ 1 ≤ e ∧ e ≤ 4) ∧
    ((source_health_entry s e).status = "critical" ↔ 5 ≤ e) ∧
    (0 < s.total_articles_fetched →
      (source_health_entry s e).success_rate = max 0 (100 - (e : Int) * 10)) ∧
    (s.total_articles_fetched = 0 →
      (source_health_entry s e).success_rate = 100) := by
  unfold source_health_entry
  by_cases h0 : e = 0
  · subst h0
    simp
  · by_cases h5 : e < 5
    · simp only [beq_iff_eq, h0, if_false, if_pos h5]
      refine ⟨by simp, by simp; omega, by simp; omega, ?_, ?_⟩
      · intro h
        simp [h]
      · intro h
        simp [h]
    · simp only [beq_iff_eq, h0, if_false, if_neg h5]
      refine ⟨by simp, by simp; omega, by simp; omega, ?_, ?_⟩
      · intro h
        simp [h]
      · intro h
        simp [h]

/-- C9, counterexample: the claim says the report's `success_rate` equals
`max(0, 100 - recent_errors*10)`, but the source only overwrites the initial
value 100 when `total_articles_fetched > 0`: for source `S` with zero
lifetime articles and three matching error rows in the trailing 24 hours,
the report says `success_rate = 100` while the claimed formula gives 70. -/
theorem c9_counterexample :
    get_source_health_status 1000000 logsH [srcH] =
      [{ name := "S", enabled := true, last_fetched := none,
         total_articles := 0, recent_errors := 3, success_rate := 100,
         status := "warning" }] ∧
    max 0 (100 - (3 : Int) * 10) = 70 ∧ (100 : Int) ≠ 70 := by
  refine ⟨by decide, by decide, by decide⟩

/-- C9, amended: every entry of the health report computes `status` as a
pure function of the trailing-24h error count — healthy iff the count is 0,
warning iff it is 1 to 4, critical iff it is 5 or more — and reports
`success_rate` equal to `max(0, 100 - recent_errors*10)` whenever the source
has a positive lifetime article count, and 100 (the untouched initial
value) when its lifetime article count is zero. -/
theorem c9_health_report (now : Int) (logs : List LogEvent)
    (sources : List Source) (entry : HealthEntry)
    (h : entry ∈ get_source_health_status now logs sources) :
    (entry.status = "healthy" ↔ entry.recent_errors = 0) ∧
    (entry.status = "warning" ↔ 1 ≤ entry.recent_errors ∧ entry.recent_errors ≤ 4) ∧
    (entry.status = "critical" ↔ 5 ≤ entry.recent_errors) ∧
    (0 < entry.total_articles →
      entry.success_rate = max 0 (100 - (entry.recent_errors : Int) * 10)) ∧
    (entry.total_articles = 0 → entry.success_rate = 100) := by
  rw [get_source_health_status, List.mem_map] at h
  obtain ⟨s, _, rfl⟩ := h
  have h := source_health_entry_spec s (recentErrorCount logs s.name now 86400)
  have htot : (source_health_entry s (recentErrorCount logs s.name now 86400)).total_articles
      = s.total_articles_fetched := rfl
  have herr : (source_health_entry s (recentErrorCount logs s.name now 86400)).recent_errors
      = recentErrorCount logs s.name now 86400 := rfl
  rw [htot, herr]
  exact h

/-- C9, witness: the amended theorem applied to the concrete report for
source `S`. -/
theorem c9_health_report_witness :
    ((source_health_entry srcH 3).status = "warning" ↔
      1 ≤ (source_health_entry srcH 3).recent_errors ∧
        (source_health_entry srcH 3).recent_errors ≤ 4) ∧
    ((source_health_entry srcH 3).total_articles = 0 →
      (source_health_entry srcH 3).success_rate = 100) := by
  have h := c9_health_report 1000000 logsH [srcH] (source_health_entry srcH 3)
    (by decide)
  exact ⟨h.2.1, h.2.2.2.2⟩

/-! ### C1: auto-disable decision -/

/-- C1: the code cannot see its own error events.  `_handle_fetch_error`
logs each `access_denied` failure with the message `"Fetch attempt N failed
for X: Access denied (403) - X may be blocking automated requests"`, which
contains no occurrence of the substring `error`, so the
`LIKE '%X%error%'` count used by `_consider_disabling_source` stays 0 no
matter how many such events are logged: with ten `access_denied` events for
`X` inside the trailing 7 days and a final `access_denied` attempt, the
source is left enabled and no `disable` row is appended, although the claim
(and spec §8) requires it to be disabled. -/
theorem c1_disable_miscount :
    errorEventsForSource logsX "X" 1000000 604800 = 10 ∧
    isPersistent ErrorType.access_denied = true ∧
    recentErrorCount logsX "X" 1000000 604800 = 0 ∧
    consider_disabling_source 1000000 srcX ErrorType.access_denied logsX =
      (srcX, logsX) ∧
    srcX.enabled = true := by
  refine ⟨by decide, rfl, by decide, by decide, rfl⟩

/-! ### C4 and C10: recovery sweeper -/

/-- The sweeper's re-enable condition holds exactly when the probe parses
without raising and reports at least one entry. -/
theorem probePasses_iff (probe : ProbeOracle) (s : Source) :
    probePasses (test_rss_source probe s) = true ↔
      ∃ n, probe s = Except.ok n ∧ 0 < n := by
  unfold probePasses test_rss_source
  cases hp : probe s with
  | error msg =>
    simp
  | ok n =>
    cases n with
    | zero => simp
    | succ m =>
      simp

/-- C4: a disabled source with a non-null `last_fetched` is probed iff the
timestamp is more than 24 hours (86400 seconds) old; when probed it is
re-enabled — with an `enable` log row appended — iff the probe succeeds with
at least one entry; a failed probe (raise, or zero entries) leaves it
disabled and appends nothing; inside the cooldown the sweep leaves
everything untouched. -/
theorem c4_recovery_sweep (now t : Int) (probe : ProbeOracle) (s : Source)
    (logs : List LogEvent) (hdis : s.enabled = false)
    (hlf : s.last_fetched = some t) :
    (now - t ≤ 86400 →
      auto_recover_sources now probe [s] logs =
        { sources := [s], logs := logs, probed := [], recovered := [] }) ∧
    (86400 < now - t →
      (auto_recover_sources now probe [s] logs).probed = [s.name] ∧
      ((∃ n, probe s = Except.ok n ∧ 0 < n) →
        auto_recover_sources now probe [s] logs =
          { sources := [{ s with enabled := true }],
            logs := logs ++ [enableEvent s.name now],
            probed := [s.name], recovered := [s.name] }) ∧
      (¬ (∃ n, probe s = Except.ok n ∧ 0 < n) →
        auto_recover_sources now probe [s] logs =
          { sources := [s], logs := logs, probed := [s.name],
            recovered := [] })) := by
  constructor
  · intro hcool
    have hc : ¬ (86400 < now - t) := by omega
    simp [auto_recover_sources, recover_one, hdis, hlf, hc]
  · intro hage
    by_cases hpass : probePasses (test_rss_source probe s) = true
    · refine ⟨?_, ?_, ?_⟩
      · simp [auto_recover_sources, recover_one, hdis, hlf, hage, hpass]
      · intro _
        simp [auto_recover_sources, recover_one, hdis, hlf, hage, hpass]
      · intro hno
        exact absurd ((probePasses_iff probe s).mp hpass) hno
    · have hpf : probePasses (test_rss_source probe s) = false :=
        Bool.not_eq_true _ ▸ Bool.of_not_eq_true hpass
      refine ⟨?_, ?_, ?_⟩
      · simp [auto_recover_sources, recover_one, hdis, hlf, hage, hpf]
      · intro hyes
        exact absurd ((probePasses_iff probe s).mpr hyes) hpass
      · intro _
        simp [auto_recover_sources, recover_one, hdis, hlf, hage, hpf]

/-- C4, witness: at `now = 200000` the source last fetched at 100000 (more
than 24 hours earlier) is probed, and a probe reporting three entries
re-enables it with an `enable` log row. -/
theorem c4_recovery_sweep_witness :
    (auto_recover_sources 200000 probeOK3 [sweepSrc] []).probed = ["A"] ∧
    auto_recover_sources 200000 probeOK3 [sweepSrc] [] =
      { sources := [{ sweepSrc with enabled := true }],
        logs := [enableEvent "A" 200000],
        probed := ["A"], recovered := ["A"] } := by
  have h := (c4_recovery_sweep 200000 100000 probeOK3 sweepSrc [] rfl rfl).2
    (by decide)
  exact ⟨h.1, h.2.1 ⟨3, rfl, by decide⟩⟩

/-- Each sweep rewrites the registry element-wise through `recover_one`. -/
theorem auto_recover_sources_get? (now : Int) (probe : ProbeOracle) :
    ∀ (srcs : List Source) (logs : List LogEvent) (i : Nat),
      (auto_recover_sources now probe srcs logs).sources.get? i =
        (srcs.get? i).map (fun s => (recover_one now probe s).1)
  | [], _, _ => rfl
  | _ :: rest, logs, 0 => rfl
  | s :: rest, logs, i + 1 => by
    show (auto_recover_sources now probe rest _).sources.get? i = _
    exact auto_recover_sources_get? now probe rest _ i

/-- C10: a disabled source whose `last_fetched` is null is never probed and
never re-enabled: `recover_one` returns it untouched and unprobed, and after
any number of recovery sweeps the registry still holds it unchanged, with
`enabled` still false. -/
theorem c10_null_last_fetched_never_recovers (now : Int) (probe : ProbeOracle)
    (s : Source) (srcs : List Source) (logs : List LogEvent) (i k : Nat)
    (hdis : s.enabled = false) (hlf : s.last_fetched = none)
    (hi : srcs.get? i = some s) :
    recover_one now probe s = (s, false, false) ∧
    (sweepN now probe k (srcs, logs)).1.get? i = some s ∧
    s.enabled = false := by
  have hone : recover_one now probe s = (s, false, false) := by
    simp [recover_one, hdis, hlf]
  refine ⟨hone, ?_, hdis⟩
  induction k generalizing srcs logs with
  | zero => exact hi
  | succ k ih =>
    show (sweepN now probe k _).1.get? i = some s
    apply ih
    rw [auto_recover_sources_get?, hi, Option.map_some', hone]

/-- C10, witness: the theorem applied to a concrete never-fetched disabled
source, three sweeps. -/
theorem c10_null_last_fetched_never_recovers_witness :
    recover_one 200000 probeOK3 nullSrc = (nullSrc, false, false) ∧
    (sweepN 200000 probeOK3 3 ([sweepSrc, nullSrc], [])).1.get? 1 =
      some nullSrc ∧
    nullSrc.enabled = false :=
  c10_null_last_fetched_never_recovers 200000 probeOK3 nullSrc
    [sweepSrc, nullSrc] [] 1 3 rfl rfl rfl

/-! ### C6: rate limiting of outbound calls -/

/-- C6, counterexample: in `_fetch_from_rss` the per-entry enrichment
download (`newspaper.Article.download()`) is issued without calling
`_rate_limit()`: with one relevant entry whose enrichment succeeds, the
trace holds the feed fetch and the enrichment fetch back to back with no
rate-limiter acquisition between them, so not every outbound call passes
through the rate limiter. -/
theorem c6_counterexample :
    rssTrace [rssEntry0] (fun _ => false) =
      [NetEv.limit, NetEv.call NetCall.feedFetch,
       NetEv.call (NetCall.newspaperFetch "http://l/1")] ∧
    callsLimitedFrom false (rssTrace [rssEntry0] (fun _ => false)) = false := by
  exact ⟨by decide, by decide⟩

theorem guardedCallsLimitedFrom_limit (b : Bool) (rest : List NetEv) :
    guardedCallsLimitedFrom b (NetEv.limit :: rest) =
      guardedCallsLimitedFrom true rest := rfl

theorem guardedCallsLimitedFrom_call (b : Bool) (c : NetCall)
    (rest : List NetEv) :
    guardedCallsLimitedFrom b (NetEv.call c :: rest) =
      ((!limitedCall c || b) && guardedCallsLimitedFrom false rest) := rfl

/-- Segments contributed by the per-entry/per-link loops: possibly nothing,
or an unguarded newspaper download optionally followed by a rate-limited
fallback fetch. -/
theorem guardedCallsLimitedFrom_flatMap {α : Type} (f : α → List NetEv)
    (hf : ∀ a, f a = [] ∨
      ∃ lnk rest, f a = NetEv.call (NetCall.newspaperFetch lnk) :: rest ∧
        (rest = [] ∨ ∃ l2, rest = [NetEv.limit, NetEv.call (NetCall.altFetch l2)])) :
    ∀ (l : List α) (b : Bool), guardedCallsLimitedFrom b (l.flatMap f) = true := by
  intro l
  induction l with
  | nil => intro b; rfl
  | cons a tl ih =>
    intro b
    rw [List.flatMap_cons]
    rcases hf a with h | ⟨lnk, rest, hfa, hrest⟩
    · rw [h, List.nil_append]
      exact ih b
    · rw [hfa]
      rcases hrest with h | ⟨l2, h⟩ <;> subst h
      · rw [List.cons_append, List.nil_append, guardedCallsLimitedFrom_call,
          ih false]
        simp [limitedCall]
      · rw [List.cons_append, List.cons_append, List.cons_append,
          List.nil_append, guardedCallsLimitedFrom_call,
          guardedCallsLimitedFrom_limit, guardedCallsLimitedFrom_call,
          ih false]
        simp [limitedCall]

/-- C6, amended: the feed-level fetch, the root-page fetch and every
`_fetch_with_requests` fallback fetch pass through the rate limiter
immediately before being issued, in both extractors; the per-entry/per-link
`newspaper` enrichment downloads are issued without the rate limiter (as
the counterexample shows), so only the guarded calls are spaced by the
minimum delay. -/
theorem c6_guarded_calls_limited (entries : List FeedEntry)
    (enrichFails : FeedEntry → Bool) (sourceUrl : String)
    (links : List PageLink) (usable : PageLink → Bool) :
    guardedCallsLimitedFrom false (rssTrace entries enrichFails) = true ∧
    guardedCallsLimitedFrom false (websiteTrace sourceUrl links usable) = true := by
  constructor
  · rw [rssTrace, guardedCallsLimitedFrom_limit, guardedCallsLimitedFrom_call,
      guardedCallsLimitedFrom_flatMap]
    · rfl
    · intro e
      by_cases hrel : entryRelevant e
      · by_cases hef : enrichFails e
        · right
          exact ⟨e.link, _, by simp [hrel, hef], Or.inr ⟨e.link, rfl⟩⟩
        · right
          exact ⟨e.link, _, by simp [hrel, hef], Or.inl rfl⟩
      · left
        simp [hrel]
  · rw [websiteTrace, guardedCallsLimitedFrom_limit,
      guardedCallsLimitedFrom_call, guardedCallsLimitedFrom_flatMap]
    · rfl
    · intro l
      by_cases hcand : linkCandidate l
      · by_cases hus : usable l
        · right
          exact ⟨normHref sourceUrl l.href, _, by simp [hcand, hus], Or.inl rfl⟩
        · right
          exact ⟨normHref sourceUrl l.href, _, by simp [hcand, hus],
            Or.inr ⟨normHref sourceUrl l.href, rfl⟩⟩
      · left
        simp [hcand]

/-! ### C8: per-entry enrichment failure never drops the entry -/

/-- C8: a feed entry within the 10 most recent that passes the relevance
check is emitted as a candidate article whatever the enrichment outcome
(carrying the entry's own title and link), and when both the newspaper
enrichment and the `_fetch_with_requests` fallback fail, its `content` is
the feed-provided summary. -/
theorem c8_enrichment_fallback (sourceName : String)
    (entries : List FeedEntry) (enrich : FeedEntry → EnrichResult)
    (alt : FeedEntry → Option String) (e : FeedEntry)
    (he : e ∈ entries.take 10) (hrel : entryRelevant e = true) :
    rssEntryArticle sourceName enrich alt e ∈
      fetch_from_rss sourceName entries enrich alt ∧
    (rssEntryArticle sourceName enrich alt e).title = e.title ∧
    (rssEntryArticle sourceName enrich alt e).url = e.link ∧
    (enrich e = EnrichResult.fail → alt e = none →
      (rssEntryArticle sourceName enrich alt e).content = some e.summary) := by
  refine ⟨?_, ?_, ?_, ?_⟩
  · rw [fetch_from_rss]
    exact List.mem_filterMap.mpr ⟨e, he, by rw [hrel]; rfl⟩
  · unfold rssEntryArticle
    cases enrich e <;> rfl
  · unfold rssEntryArticle
    cases enrich e <;> rfl
  · intro h1 h2
    simp [rssEntryArticle, h1, h2]

/-- C8, witness: a relevant entry whose enrichment raises and whose fallback
fetch also fails is still emitted, with the summary as content. -/
theorem c8_enrichment_fallback_witness :
    rssEntryArticle "SRC" (fun _ => EnrichResult.fail) (fun _ => none)
        rssEntry0 ∈
      fetch_from_rss "SRC" [rssEntry0] (fun _ => EnrichResult.fail)
        (fun _ => none) ∧
    (rssEntryArticle "SRC" (fun _ => EnrichResult.fail) (fun _ => none)
        rssEntry0).content = some rssEntry0.summary := by
  have h := c8_enrichment_fallback "SRC" [rssEntry0]
    (fun _ => EnrichResult.fail) (fun _ => none) rssEntry0
    (by decide) (by decide)
  exact ⟨h.1, h.2.2.2 rfl rfl⟩

/-! ### C2: title deduplication -/

/-- A title present in the table stays present after a batch save. -/
theorem save_keeps_title (fmt : PyArticle → String) (now : Int) :
    ∀ (arts : List PyArticle) (posts : List Post) (logs : List LogEvent)
      (t : String),
      posts.any (fun p => p.title == t) = true →
      (process_and_save_articles fmt now arts posts logs).1.any
        (fun p => p.title == t) = true
  | [], posts, logs, t, h => h
  | a :: rest, posts, logs, t, h => by
    rw [process_and_save_articles]
    by_cases hd : posts.any (fun p => p.title == a.title) = true
    · rw [if_pos hd]
      exact save_keeps_title fmt now rest posts _ t h
    · rw [if_neg hd]
      refine save_keeps_title fmt now rest _ _ t ?_
      rw [List.any_append, h, Bool.true_or]

/-- After a batch save, every batch title is present in the table. -/
theorem save_adds_titles (fmt : PyArticle → String) (now : Int) :
    ∀ (arts : List PyArticle) (posts : List Post) (logs : List LogEvent)
      (a : PyArticle), a ∈ arts →
      (process_and_save_articles fmt now arts posts logs).1.any
        (fun p => p.title == a.title) = true
  | b :: rest, posts, logs, a, ha => by
    rw [process_and_save_articles]
    by_cases hd : posts.any (fun p => p.title == b.title) = true
    · rw [if_pos hd]
      rcases List.mem_cons.mp ha with rfl | ha'
      · exact save_keeps_title fmt now rest posts _ a.title hd
      · exact save_adds_titles fmt now rest posts _ a ha'
    · rw [if_neg hd]
      rcases List.mem_cons.mp ha with rfl | ha'
      · refine save_keeps_title fmt now rest _ _ a.title ?_
        rw [List.any_append]
        simp
      · exact save_adds_titles fmt now rest _ _ a ha'

/-- Saving a batch whose titles are all already present is a no-op on the
post table. -/
theorem save_noop_of_titles_present (fmt : PyArticle → String) (now : Int) :
    ∀ (arts : List PyArticle) (posts : List Post) (logs : List LogEvent),
      (∀ a ∈ arts, posts.any (fun p => p.title == a.title) = true) →
      (process_and_save_articles fmt now arts posts logs).1 = posts
  | [], posts, logs, _ => rfl
  | a :: rest, posts, logs, h => by
    rw [process_and_save_articles, if_pos (h a (List.mem_cons_self a rest))]
    exact save_noop_of_titles_present fmt now rest posts _
      (fun b hb => h b (List.mem_cons_of_mem a hb))

/-- A title absent from the `any` lookup has count zero. -/
theorem countTitle_eq_zero_of_any_false (t : String) (posts : List Post)
    (h : posts.any (fun p => p.title == t) = false) :
    countTitle t posts = 0 := by
  rw [countTitle, List.length_eq_zero, List.filter_eq_nil_iff]
  intro p hp
  intro hpt
  have : posts.any (fun p => p.title == t) = true :=
    List.any_eq_true.mpr ⟨p, hp, hpt⟩
  rw [h] at this
  exact Bool.false_ne_true this

/-- One batch save preserves the at-most-one-record-per-title invariant. -/
theorem save_countTitle_le_one (fmt : PyArticle → String) (now : Int) :
    ∀ (arts : List PyArticle) (posts : List Post) (logs : List LogEvent)
      (t : String), countTitle t posts ≤ 1 →
      countTitle t (process_and_save_articles fmt now arts posts logs).1 ≤ 1
  | [], posts, logs, t, h => h
  | a :: rest, posts, logs, t, h => by
    rw [process_and_save_articles]
    by_cases hd : posts.any (fun p => p.title == a.title) = true
    · rw [if_pos hd]
      exact save_countTitle_le_one fmt now rest posts _ t h
    · rw [if_neg hd]
      refine save_countTitle_le_one fmt now rest _ _ t ?_
      rw [countTitle, List.filter_append, List.length_append]
      by_cases ht : a.title = t
      · have h0 : countTitle t posts = 0 :=
          countTitle_eq_zero_of_any_false t posts
            (by rw [ht] at hd; exact Bool.of_not_eq_true hd)
        rw [countTitle] at h0
        rw [h0, Nat.zero_add]
        have hfil :
            List.filter (fun p => p.title == t)
              [({ title := a.title, content := fmt a, url := a.url,
                  image_url := a.image_url, source := a.source,
                  status := "pending" } : Post)] =
              [{ title := a.title, content := fmt a, url := a.url,
                 image_url := a.image_url, source := a.source,
                 status := "pending" }] := by
          rw [List.filter_cons]
          simp [ht]
        rw [hfil]
        exact Nat.le_refl 1
      · have hb : (a.title == t) = false := by
          simp [ht]
        have hfil :
            List.filter (fun p => p.title == t)
              [({ title := a.title, content := fmt a, url := a.url,
                  image_url := a.image_url, source := a.source,
                  status := "pending" } : Post)] = [] := by
          rw [List.filter_cons]
          simp [hb]
        rw [hfil]
        simpa [countTitle] using h

/-- C2: persistence deduplicates on exact title equality.  If the post table
holds at most one record for a title, then after saving any batch it still
holds at most one record for that title (duplicates inside the batch are
dropped, silently — the save is a total function); and saving the same batch
a second time adds no record at all. -/
theorem c2_title_dedup (fmt : PyArticle → String) (now now2 : Int)
    (arts : List PyArticle) (posts : List Post) (logs logs2 : List LogEvent)
    (t : String) (h : countTitle t posts ≤ 1) :
    countTitle t (process_and_save_articles fmt now arts posts logs).1 ≤ 1 ∧
    (process_and_save_articles fmt now2 arts
        (process_and_save_articles fmt now arts posts logs).1 logs2).1 =
      (process_and_save_articles fmt now arts posts logs).1 := by
  constructor
  · exact save_countTitle_le_one fmt now arts posts logs t h
  · exact save_noop_of_titles_present fmt now2 arts _ logs2
      (fun a ha => save_adds_titles fmt now arts posts logs a ha)

/-- C2, witness: a concrete batch with an in-batch duplicate title saved
into an empty table, then saved again. -/
theorem c2_title_dedup_witness :
    countTitle "same title"
      (process_and_save_articles fmtTitle 0 dupBatch [] []).1 ≤ 1 ∧
    (process_and_save_articles fmtTitle 0 dupBatch
        (process_and_save_articles fmtTitle 0 dupBatch [] []).1 []).1 =
      (process_and_save_articles fmtTitle 0 dupBatch [] []).1 :=
  c2_title_dedup fmtTitle 0 0 dupBatch [] [] [] "same title" (by decide)

/-! ### C3 and C5: orchestrator structure -/

/-- Projections of a non-early-returning `fetch_latest_news` run. -/
theorem fetch_latest_news_proj (now : Int) (oracle : FetchOracle)
    (probe : ProbeOracle) (fmt : PyArticle → String) (maxRetries : Nat)
    (sources : List Source) (posts : List Post) (logs : List LogEvent)
    (h : (sources.filter (fun s => s.enabled)).isEmpty = false) :
    (fetch_latest_news now oracle probe fmt maxRetries sources posts logs).fetchedNames =
      (sources.filter (fun s => s.enabled)).map (fun s => s.name) ∧
    (fetch_latest_news now oracle probe fmt maxRetries sources posts logs).recoveredNames =
      (auto_recover_sources now probe sources logs).recovered ∧
    (fetch_latest_news now oracle probe fmt maxRetries sources posts logs).collected =
      (processSources now oracle maxRetries (sources.filter (fun s => s.enabled))
        (auto_recover_sources now probe sources logs).logs).2.2 := by
  simp only [fetch_latest_news, h, Bool.false_eq_true, if_false]
  exact ⟨trivial, trivial, trivial⟩

/-- Projections of an early-returning `fetch_latest_news` run (no enabled
sources: the sweeper is not even invoked). -/
theorem fetch_latest_news_empty (now : Int) (oracle : FetchOracle)
    (probe : ProbeOracle) (fmt : PyArticle → String) (maxRetries : Nat)
    (sources : List Source) (posts : List Post) (logs : List LogEvent)
    (h : (sources.filter (fun s => s.enabled)).isEmpty = true) :
    (fetch_latest_news now oracle probe fmt maxRetries sources posts logs).fetchedNames = [] ∧
    (fetch_latest_news now oracle probe fmt maxRetries sources posts logs).recoveredNames = [] ∧
    (fetch_latest_news now oracle probe fmt maxRetries sources posts logs).collected = [] := by
  simp only [fetch_latest_news, h, if_true]
  exact ⟨trivial, trivial, trivial⟩

/-- The sweeper only ever recovers sources that were disabled when it ran. -/
theorem recover_one_recovered_disabled (now : Int) (probe : ProbeOracle)
    (s : Source) (h : (recover_one now probe s).2.2 = true) :
    s.enabled = false := by
  by_cases he : s.enabled
  · rw [recover_one, if_pos he] at h
    cases h
  · exact Bool.of_not_eq_true he

/-- Any name in a sweep's recovered list belongs to a source that was
disabled in the input registry. -/
theorem recovered_mem (now : Int) (probe : ProbeOracle) :
    ∀ (srcs : List Source) (logs : List LogEvent) (n : String),
      n ∈ (auto_recover_sources now probe srcs logs).recovered →
      ∃ s, s ∈ srcs ∧ s.name = n ∧ s.enabled = false
  | s :: rest, logs, n, hn => by
    rw [auto_recover_sources] at hn
    rcases List.mem_append.mp hn with hl | hr
    · by_cases hrec : (recover_one now probe s).2.2 = true
      · rw [if_pos hrec] at hl
        rcases List.mem_singleton.mp hl with rfl
        exact ⟨s, List.mem_cons_self s rest,
          rfl, recover_one_recovered_disabled now probe s hrec⟩
      · rw [if_neg hrec] at hl
        cases hl
    · obtain ⟨s', hs', hname, hdis⟩ := recovered_mem now probe rest _ n hr
      exact ⟨s', List.mem_cons_of_mem s hs', hname, hdis⟩

/-- C3, counterexample: with registry `[srcA, srcB]` where `srcA` is
disabled but recoverable and `srcB` enabled, `fetch_latest_news` re-enables
`srcA` during the run but fetches only `srcB`, because the enabled-sources
snapshot is taken before the sweeper runs: a source re-enabled this tick is
not in this tick's fetch list, contradicting the claim. -/
theorem c3_counterexample :
    "A" ∈ (fetch_latest_news 90000 oracleAB probeOK3 fmtTitle 2
      [srcA, srcB] [] []).recoveredNames ∧
    "A" ∉ (fetch_latest_news 90000 oracleAB probeOK3 fmtTitle 2
      [srcA, srcB] [] []).fetchedNames := by
  exact ⟨by decide, by decide⟩

/-- C3, amended: the Recovery Sweeper is invoked before the per-source fetch
loop, but the fetch list is the snapshot of enabled sources taken before the
sweeper runs, so (for a registry with distinct source names) no source the
sweeper re-enables during an invocation is fetched in that same
invocation — it becomes eligible only from the next run. -/
theorem c3_snapshot_taken_before_sweep (now : Int) (oracle : FetchOracle)
    (probe : ProbeOracle) (fmt : PyArticle → String) (maxRetries : Nat)
    (sources : List Source) (posts : List Post) (logs : List LogEvent)
    (hnd : (sources.map (fun s => s.name)).Nodup) :
    (fetch_latest_news now oracle probe fmt maxRetries sources posts logs).fetchedNames =
      (sources.filter (fun s => s.enabled)).map (fun s => s.name) ∧
    ∀ n ∈ (fetch_latest_news now oracle probe fmt maxRetries sources posts
        logs).recoveredNames,
      n ∉ (fetch_latest_news now oracle probe fmt maxRetries sources posts
        logs).fetchedNames := by
  cases hemp : (sources.filter (fun s => s.enabled)).isEmpty with
  | true =>
    obtain ⟨h1, h2, _⟩ := fetch_latest_news_empty now oracle probe fmt
      maxRetries sources posts logs hemp
    refine ⟨?_, ?_⟩
    · rw [h1, List.isEmpty_iff.mp hemp]
      rfl
    · intro n hn
      rw [h2] at hn
      cases hn
  | false =>
    obtain ⟨h1, h2, _⟩ := fetch_latest_news_proj now oracle probe fmt
      maxRetries sources posts logs hemp
    refine ⟨h1, ?_⟩
    intro n hn hmem
    rw [h2] at hn
    rw [h1] at hmem
    obtain ⟨s, hs, hname, hdis⟩ := recovered_mem now probe sources logs n hn
    rw [List.mem_map] at hmem
    obtain ⟨s', hs', hname'⟩ := hmem
    rw [List.mem_filter] at hs'
    have heq : s = s' :=
      List.inj_on_of_nodup_map hnd hs hs'.1 (by rw [hname, hname'])
    rw [heq] at hdis
    rw [hdis] at hs'
    cases hs'.2

/-- C3, witness: the amended theorem applied to the concrete two-source
registry of the counterexample. -/
theorem c3_snapshot_taken_before_sweep_witness :
    (fetch_latest_news 90000 oracleAB probeOK3 fmtTitle 2 [srcA, srcB] []
      []).fetchedNames =
      ([srcA, srcB].filter (fun s => s.enabled)).map (fun s => s.name) :=
  (c3_snapshot_taken_before_sweep 90000 oracleAB probeOK3 fmtTitle 2
    [srcA, srcB] [] [] (by decide)).1

/-- The article list produced by the retry loop does not depend on the
ambient log. -/
theorem runAttempts_articles_log_indep (now : Int) (oracle : Nat → FetchOutcome)
    (maxRetries : Nat) (src : Source) :
    ∀ (fuel retry_count : Nat) (logs : List LogEvent),
      (runAttempts now oracle maxRetries src logs retry_count fuel).2.2 =
        (runAttempts now oracle maxRetries src [] retry_count fuel).2.2
  | 0, _, _ => rfl
  | fuel + 1, retry_count, logs => by
    rw [runAttempts, runAttempts]
    cases ho : oracle retry_count with
    | ok arts =>
      cases arts with
      | nil =>
        simp only []
        by_cases hlt : retry_count < maxRetries
        · rw [if_pos hlt, if_pos hlt]
          exact runAttempts_articles_log_indep now oracle maxRetries src fuel
            (retry_count + 1) logs
        · rw [if_neg hlt, if_neg hlt]
      | cons a rest => rfl
    | err e raw =>
      simp only []
      by_cases hlt : retry_count < maxRetries
      · rw [if_pos hlt, if_pos hlt]
        exact (runAttempts_articles_log_indep now oracle maxRetries src fuel
            (retry_count + 1) _).trans
          (runAttempts_articles_log_indep now oracle maxRetries src fuel
            (retry_count + 1) _).symm
      · rw [if_neg hlt, if_neg hlt]
        by_cases hp : isPersistent e = true
        · rw [if_pos hp, if_pos hp]
        · rw [if_neg hp, if_neg hp]

/-- `processSource` yields `sourceArticles` whatever the ambient log. -/
theorem processSource_articles (now : Int) (oracle : FetchOracle)
    (maxRetries : Nat) (src : Source) (logs : List LogEvent) :
    (processSource now oracle maxRetries src logs).2.2 =
      sourceArticles now oracle maxRetries src :=
  runAttempts_articles_log_indep now (oracle src.name) maxRetries src
    (maxRetries + 1) 0 logs

/-- The collected articles of the per-source loop are the concatenation of
each source's own contribution. -/
theorem processSources_articles (now : Int) (oracle : FetchOracle)
    (maxRetries : Nat) :
    ∀ (srcs : List Source) (logs : List LogEvent),
      (processSources now oracle maxRetries srcs logs).2.2 =
        srcs.flatMap (sourceArticles now oracle maxRetries)
  | [], _ => rfl
  | s :: rest, logs => by
    rw [processSources, List.flatMap_cons,
      processSource_articles now oracle maxRetries s logs,
      processSources_articles now oracle maxRetries rest _]

/-- A source whose every extraction attempt raises contributes no
articles. -/
theorem sourceArticles_nil_of_always_err (now : Int) (oracle : FetchOracle)
    (maxRetries : Nat) (src : Source)
    (herr : ∀ n, ∃ et raw, oracle src.name n = FetchOutcome.err et raw) :
    sourceArticles now oracle maxRetries src = [] := by
  rw [sourceArticles, processSource]
  generalize 0 = retry_count
  generalize maxRetries + 1 = fuel
  induction fuel generalizing retry_count with
  | zero => rfl
  | succ fuel ih =>
    obtain ⟨et, raw, ho⟩ := herr retry_count
    rw [runAttempts, ho]
    simp only []
    by_cases hlt : retry_count < maxRetries
    · rw [if_pos hlt]
      exact (runAttempts_articles_log_indep now (oracle src.name) maxRetries
          src fuel (retry_count + 1) _).trans (ih (retry_count + 1))
    · rw [if_neg hlt]
      by_cases hp : isPersistent et = true
      · rw [if_pos hp]
      · rw [if_neg hp]

/-- C5: exhaustion of one source never aborts the run.  If the enabled
snapshot is `xs ++ b :: ys` and every attempt on `b` raises, the run still
enters the loop for every snapshot source — those after `b` included — and
returns (the run is a total function) with exactly the articles the other
sources contribute; `b` contributes none. -/
theorem c5_bulkhead (now : Int) (oracle : FetchOracle) (probe : ProbeOracle)
    (fmt : PyArticle → String) (maxRetries : Nat) (sources : List Source)
    (posts : List Post) (logs : List LogEvent) (xs ys : List Source)
    (b : Source)
    (hsplit : sources.filter (fun s => s.enabled) = xs ++ b :: ys)
    (herr : ∀ n, ∃ et raw, oracle b.name n = FetchOutcome.err et raw) :
    (fetch_latest_news now oracle probe fmt maxRetries sources posts
        logs).fetchedNames =
      (xs ++ b :: ys).map (fun s => s.name) ∧
    (fetch_latest_news now oracle probe fmt maxRetries sources posts
        logs).collected =
      xs.flatMap (sourceArticles now oracle maxRetries) ++
        ys.flatMap (sourceArticles now oracle maxRetries) := by
  have hemp : (sources.filter (fun s => s.enabled)).isEmpty = false := by
    rw [hsplit]
    cases xs <;> rfl
  obtain ⟨h1, _, h3⟩ := fetch_latest_news_proj now oracle probe fmt maxRetries
    sources posts logs hemp
  constructor
  · rw [h1, hsplit]
  · rw [h3, processSources_articles, hsplit, List.flatMap_append,
      List.flatMap_cons,
      sourceArticles_nil_of_always_err now oracle maxRetries b herr,
      List.nil_append]

/-- C5, witness: a three-source run whose middle source times out on every
attempt still fetches the outer two sources and collects their articles. -/
theorem c5_bulkhead_witness :
    (fetch_latest_news 0 oracleC5 probeOK3 fmtTitle 2 [srcOne, srcBad, srcTwo]
        [] []).fetchedNames =
      ([srcOne] ++ srcBad :: [srcTwo]).map (fun s => s.name) ∧
    (fetch_latest_news 0 oracleC5 probeOK3 fmtTitle 2 [srcOne, srcBad, srcTwo]
        [] []).collected =
      [srcOne].flatMap (sourceArticles 0 oracleC5 2) ++
        [srcTwo].flatMap (sourceArticles 0 oracleC5 2) :=
  c5_bulkhead 0 oracleC5 probeOK3 fmtTitle 2 [srcOne, srcBad, srcTwo] [] []
    [srcOne] [srcTwo] srcBad rfl
    (fun _ => ⟨ErrorType.timeout, "", rfl⟩)

end NewsFetcher
